import Mathlib

/-!
Shallow embedding of `soundplayer.cpp` (Tonal-Audiometry): the playlist
Playback Sequencer (`SoundPlayer`) and the looping calibration player
(`SingleFilePlayer`).

Modelling conventions:
* Qt objects become explicit state; every operation is a function from the
  state to the new state together with a trace of `Act`s recording sink
  calls, timer calls, stream-open attempts and emitted signals.
* Signal delivery is same-thread and synchronous (Qt direct connections
  inside one QObject tree): `QAudioOutput::stop()` on a non-stopped sink
  synchronously delivers `stateChanged(StoppedState)`, whose handler starts
  the gap timer; `QAudioOutput::start(...)` synchronously delivers
  `stateChanged(ActiveState)`.  These cascades are inlined in `sinkStopOp`
  and `sinkStartOp`.
* `qreal` values become `Rat`; streams become records carrying an id, an
  open flag and whether `open(QIODevice::ReadOnly)` would succeed; a null
  pointer dereference is recorded as the `Act.nullDeref` trace element.
-/

/-- Sound channel selector.  The C++ enum `SoundSample::Direction` has the
enumerators Left and Right; `Invalid` stands for any other value that the
underlying integer may carry (the `default:` case of the switches). -/
inductive Direction where
  | Left
  | Right
  | Invalid
  deriving DecidableEq, Repr

/-- States of the audio sink (`QAudio::State`). -/
inductive AudioState where
  | Active
  | Suspended
  | Stopped
  | Idle
  deriving DecidableEq, Repr

/-- A sample stream (`QIODevice`): an identifier, whether it is currently
open, and whether an `open(QIODevice::ReadOnly)` call would succeed. -/
structure StreamObj where
  id : Nat
  isOpen : Bool
  canOpen : Bool
  deriving DecidableEq, Repr

/-- One channel of a playlist entry: the stream and its intrinsic volume
(the `qreal` of the `QPair<QIODevice *, qreal>` returned by the iterator). -/
structure Sample where
  stream : StreamObj
  volume : Rat
  deriving DecidableEq, Repr

/-- One playlist entry (stereo pair) together with the metadata the iterator
reports for it once it is the current entry. -/
structure SoundSet where
  left : Sample
  right : Sample
  freq : Int
  volDb : Rat
  volPercent : Rat
  deriving DecidableEq, Repr

/-- The playlist iterator collaborator (`PlaylistIter`): the entries still to
be played, the entry currently playing (metadata source), and whether
`stop()` has been requested on it. -/
structure PlaylistIter where
  remaining : List SoundSet
  current : Option SoundSet
  stopRequested : Bool
  deriving DecidableEq, Repr

/-- Whether the iterator has a next entry. -/
def PlaylistIter.hasNext (it : PlaylistIter) : Bool :=
  !it.remaining.isEmpty

/-- Fetch the next left-channel sample and advance; the fetched entry becomes
the current one.  Only invoked under a `hasNext` guard in the source; on an
exhausted iterator the collaborator's behaviour is unspecified and we return
the iterator unchanged with a junk sample. -/
def PlaylistIter.nextLeft (it : PlaylistIter) : (StreamObj × Rat) × PlaylistIter :=
  match it.remaining with
  | [] => ((⟨0, false, false⟩, 0), it)
  | e :: rest => ((e.left.stream, e.left.volume), ⟨rest, some e, it.stopRequested⟩)

/-- Fetch the next right-channel sample and advance (see `nextLeft`). -/
def PlaylistIter.nextRight (it : PlaylistIter) : (StreamObj × Rat) × PlaylistIter :=
  match it.remaining with
  | [] => ((⟨0, false, false⟩, 0), it)
  | e :: rest => ((e.right.stream, e.right.volume), ⟨rest, some e, it.stopRequested⟩)

/-- Metadata of the current entry; valid only once a sample has been fetched
(spec of the external collaborator), defaulting to 0 otherwise. -/
def PlaylistIter.getCurrentFrequency (it : PlaylistIter) : Int :=
  (it.current.map SoundSet.freq).getD 0

/-- Current volume in dB as reported by the iterator. -/
def PlaylistIter.getCurrentVolumeDb (it : PlaylistIter) : Rat :=
  (it.current.map SoundSet.volDb).getD 0

/-- Current volume in percent as reported by the iterator. -/
def PlaylistIter.getCurrentVolumePercent (it : PlaylistIter) : Rat :=
  (it.current.map SoundSet.volPercent).getD 0

/-- The iterator is instructed to stop (`playlistIter->stop()`). -/
def PlaylistIter.stop (it : PlaylistIter) : PlaylistIter :=
  { it with stopRequested := true }

/-- The playlist collaborator; `iterator()` returns a fresh iterator over its
entries. -/
structure Playlist where
  entries : List SoundSet
  deriving DecidableEq, Repr

/-- A fresh, independent iterator positioned before the first entry. -/
def Playlist.iterator (p : Playlist) : PlaylistIter :=
  ⟨p.entries, none, false⟩

/-- The metadata snapshot emitted alongside the Active state
(`AudiogramData(frequency, volumeDb, volumePercent)`). -/
structure AudiogramData where
  frequency : Int
  volumeDb : Rat
  volumePercent : Rat
  deriving DecidableEq, Repr

/-- The audio sink (`QAudioOutput`): its state and its volume. -/
structure Sink where
  state : AudioState
  volume : Rat
  deriving DecidableEq, Repr

/-- Observable actions of one operation: device calls, timer calls, stream
open attempts, emitted signals, and null-pointer dereferences. -/
inductive Act where
  | setVolume (v : Rat)
  | sinkStart (streamId : Nat)
  | sinkStop
  | timerStart
  | timerStop
  | iterStop
  | streamOpen (streamId : Nat) (ok : Bool)
  | nullDeref
  | emitError (msg : String)
  | emitCurrentPlaylistElement (a : AudiogramData)
  | emitStopPlaying
  | emitAboutToPlayNextElement
  | emitPlaylistEnded
  deriving DecidableEq, Repr

/-- Recognize a sink `start` call. -/
def Act.isSinkStart : Act → Bool
  | Act.sinkStart _ => true
  | _ => false

/-- Recognize an `errorString` emission. -/
def Act.isErrorEmit : Act → Bool
  | Act.emitError _ => true
  | _ => false

/-- Recognize any interaction with the audio sink. -/
def Act.isSinkInteraction : Act → Bool
  | Act.sinkStart _ => true
  | Act.sinkStop => true
  | Act.setVolume _ => true
  | _ => false

/-- Recognize a `playlistEnded` emission. -/
def Act.isPlaylistEndedEmit : Act → Bool
  | Act.emitPlaylistEnded => true
  | _ => false

/-- Recognize a stream `open(QIODevice::ReadOnly)` attempt. -/
def Act.isOpenAttempt : Act → Bool
  | Act.streamOpen _ _ => true
  | _ => false

/-- Error message strings of `soundplayer.cpp`. -/
def DIRECTION_ERROR : String := "Incorrect SoundSample::Direction"

/-- Playlist error message string. -/
def PLAYLIST_ERROR : String := "Playlist error"

/-- Sound sample open error message string. -/
def SOUND_SAMPLE_OPEN_ERROR : String := "Could not open a sound sample file"

/-- State of the `SoundPlayer` playback sequencer: the playlist pointer, the
iterator handle, the requested channel, the calibration volume offset, the
single-shot gap timer (active flag and interval), and the owned sink. -/
structure SoundPlayer where
  playlist : Option Playlist
  playlistIter : Option PlaylistIter
  currentChannel : Direction
  volumeAdjust : Rat
  timerActive : Bool
  noSoundTimeSpanMs : Int
  sink : Sink
  deriving DecidableEq, Repr

/-- Actions of the `QAudio::ActiveState` branch of
`SoundPlayer::onStateChanged`: emit `currentPlaylistElement` with the
iterator's current metadata (dereferences the iterator handle). -/
def activeActions (s : SoundPlayer) : List Act :=
  match s.playlistIter with
  | none => [Act.nullDeref]
  | some it =>
      [Act.emitCurrentPlaylistElement
        ⟨it.getCurrentFrequency, it.getCurrentVolumeDb, it.getCurrentVolumePercent⟩]

/-- Effect of `audioDevice->stop()`.  If the sink is not already stopped it
transitions to Stopped and synchronously delivers `stateChanged(Stopped)`;
the Stopped branch of `SoundPlayer::onStateChanged` then starts the gap
timer (inlined here). -/
def sinkStopOp (s : SoundPlayer) : SoundPlayer × List Act :=
  if s.sink.state = AudioState.Stopped then
    (s, [Act.sinkStop])
  else
    ({ s with sink := { s.sink with state := AudioState.Stopped }, timerActive := true },
     [Act.sinkStop, Act.timerStart])

/-- Effect of `audioDevice->start(device)`: the sink becomes Active and, if
that is a state change, synchronously delivers `stateChanged(Active)`, whose
handler emits the current metadata (inlined via `activeActions`). -/
def sinkStartOp (s : SoundPlayer) (streamId : Nat) : SoundPlayer × List Act :=
  let s1 := { s with sink := { s.sink with state := AudioState.Active } }
  (s1, Act.sinkStart streamId ::
        (if s.sink.state = AudioState.Active then [] else activeActions s1))

/-- `SoundPlayer::setAudioDevice(device, volume)`: sets the sink volume to
`volume + volumeAdjust` first; then, if the stream is not open, tries to
open it read-only — on success starts the sink, on failure emits
`SOUND_SAMPLE_OPEN_ERROR`; an already-open stream is started directly.  The
source dereferences `device` after the volume call, so a null device yields
`nullDeref` there. -/
def SoundPlayer.setAudioDevice (s : SoundPlayer) (device : Option StreamObj)
    (volume : Rat) : SoundPlayer × List Act :=
  let v := volume + s.volumeAdjust
  let s1 := { s with sink := { s.sink with volume := v } }
  match device with
  | none => (s1, [Act.setVolume v, Act.nullDeref])
  | some d =>
    if d.isOpen then
      let r := sinkStartOp s1 d.id
      (r.1, Act.setVolume v :: r.2)
    else
      if d.canOpen then
        let r := sinkStartOp s1 d.id
        (r.1, Act.setVolume v :: Act.streamOpen d.id true :: r.2)
      else
        (s1, [Act.setVolume v, Act.streamOpen d.id false,
              Act.emitError SOUND_SAMPLE_OPEN_ERROR])

/-- `SoundPlayer::onStateChanged(state)`: the sink state-change slot.
Active emits the current metadata, Suspended does nothing, Stopped starts
the gap timer, Idle stops the sink (with its synchronous cascade) and emits
`stopPlaying`. -/
def SoundPlayer.onStateChanged (s : SoundPlayer) (st : AudioState) :
    SoundPlayer × List Act :=
  match st with
  | AudioState.Active => (s, activeActions s)
  | AudioState.Suspended => (s, [])
  | AudioState.Stopped => ({ s with timerActive := true }, [Act.timerStart])
  | AudioState.Idle =>
      let r := sinkStopOp s
      (r.1, r.2 ++ [Act.emitStopPlaying])

/-- `SoundPlayer::getSample()`: channel-dispatches to the iterator's left or
right accessor (advancing it); any other channel value yields a null stream
reference with volume 0 and no signal is emitted. -/
def SoundPlayer.getSample (s : SoundPlayer) : (Option StreamObj × Rat) × SoundPlayer :=
  match s.playlistIter with
  | none => ((none, 0), s)
  | some it =>
    match s.currentChannel with
    | Direction.Left =>
        let r := it.nextLeft
        ((some r.1.1, r.1.2), { s with playlistIter := some r.2 })
    | Direction.Right =>
        let r := it.nextRight
        ((some r.1.1, r.1.2), { s with playlistIter := some r.2 })
    | Direction.Invalid => ((none, 0), s)

/-- `SoundPlayer::resetPlaylist()`: releases the iterator handle. -/
def SoundPlayer.resetPlaylist (s : SoundPlayer) : SoundPlayer :=
  { s with playlistIter := none }

/-- `SoundPlayer::setPlaylist(p)`. -/
def SoundPlayer.setPlaylist (s : SoundPlayer) (p : Playlist) : SoundPlayer :=
  { s with playlist := some p }

/-- `SoundPlayer::setCorrectionAdjustVolume(percent)`: records the
calibration volume offset. -/
def SoundPlayer.setCorrectionAdjustVolume (s : SoundPlayer) (percent : Rat) : SoundPlayer :=
  { s with volumeAdjust := percent }

/-- `SoundPlayer::setNoSoundTimeSpanMs(ms)`: reconfigures the gap timer
interval. -/
def SoundPlayer.setNoSoundTimeSpanMs (s : SoundPlayer) (ms : Int) : SoundPlayer :=
  { s with noSoundTimeSpanMs := ms }

/-- `SoundPlayer::getNoSoundTimeSpanMs()`. -/
def SoundPlayer.getNoSoundTimeSpanMs (s : SoundPlayer) : Int :=
  s.noSoundTimeSpanMs

/-- `SoundPlayer::playPlaylist(channel)`: resets the iterator, acquires a
fresh one from the playlist, records the channel; if the fresh iterator has
an entry, fetches and starts it, otherwise emits `PLAYLIST_ERROR`.  A null
playlist pointer would be dereferenced. -/
def SoundPlayer.playPlaylist (s : SoundPlayer) (channel : Direction) :
    SoundPlayer × List Act :=
  match s.playlist with
  | none => (s.resetPlaylist, [Act.nullDeref])
  | some p =>
    let it := p.iterator
    let s1 := { s with playlistIter := some it, currentChannel := channel }
    if it.hasNext then
      let r := s1.getSample
      r.2.setAudioDevice r.1.1 r.1.2
    else (s1, [Act.emitError PLAYLIST_ERROR])

/-- `SoundPlayer::playNextSample()`: the gap-timer timeout slot.  Emits
`aboutToPlayNextElement` first; if the iterator has a next entry, fetches
and starts it; otherwise emits `playlistEnded`.  A null iterator would be
dereferenced by `hasNext`. -/
def SoundPlayer.playNextSample (s : SoundPlayer) : SoundPlayer × List Act :=
  match s.playlistIter with
  | none => (s, [Act.emitAboutToPlayNextElement, Act.nullDeref])
  | some it =>
    if it.hasNext then
      let r := s.getSample
      let r2 := r.2.setAudioDevice r.1.1 r.1.2
      (r2.1, Act.emitAboutToPlayNextElement :: r2.2)
    else (s, [Act.emitAboutToPlayNextElement, Act.emitPlaylistEnded])

/-- `SoundPlayer::stopPlaylist()`: stops the sink (with its synchronous
Stopped cascade), stops the gap timer, and instructs the iterator to stop.
A null iterator handle would be dereferenced (the latent defect the spec
flags). -/
def SoundPlayer.stopPlaylist (s : SoundPlayer) : SoundPlayer × List Act :=
  let r1 := sinkStopOp s
  let s2 := { r1.1 with timerActive := false }
  match s2.playlistIter with
  | none => (s2, r1.2 ++ [Act.timerStop, Act.nullDeref])
  | some it =>
      ({ s2 with playlistIter := some it.stop },
       r1.2 ++ [Act.timerStop, Act.iterStop])

/-- Autonomous events that can occur between caller interventions: the gap
timer expiring, and the active stream running out (sink underrun:
Active transitions to Idle and notifies). -/
inductive AutoEvent where
  | timerFire
  | streamEnded
  deriving DecidableEq, Repr

/-- Whether an autonomous event is enabled in a state: the timer can only
fire while it is running, and only an Active sink can underrun to Idle. -/
def autoEnabled (s : SoundPlayer) : AutoEvent → Bool
  | AutoEvent.timerFire => s.timerActive
  | AutoEvent.streamEnded => decide (s.sink.state = AudioState.Active)

/-- Effect of an autonomous event: the single-shot timer deactivates and the
timeout slot `playNextSample` runs; an underrun moves the sink to Idle and
delivers `stateChanged(Idle)`. -/
def autoStep (s : SoundPlayer) : AutoEvent → SoundPlayer × List Act
  | AutoEvent.timerFire =>
      SoundPlayer.playNextSample { s with timerActive := false }
  | AutoEvent.streamEnded =>
      let s1 := { s with sink := { s.sink with state := AudioState.Idle } }
      s1.onStateChanged AudioState.Idle

/-- Run a sequence of attempted autonomous events; events that are not
enabled cannot occur and are skipped. -/
def runAuto (s : SoundPlayer) : List AutoEvent → SoundPlayer × List Act
  | [] => (s, [])
  | e :: es =>
    if autoEnabled s e then
      let r1 := autoStep s e
      let r2 := runAuto r1.1 es
      (r2.1, r1.2 ++ r2.2)
    else runAuto s es

/-- The calibration sound source (`FileSound` collaborator): the URL of the
left-channel sound and the streams `getSound(direction)` returns. -/
structure FileSound where
  leftUrl : String
  leftStream : StreamObj
  rightStream : StreamObj
  deriving DecidableEq, Repr

/-- The `getSound(channel)` accessor of the external `FileSound`
collaborator; only the Left channel is exercised by the single-file
player. -/
def FileSound.getSound (f : FileSound) (d : Direction) : StreamObj :=
  match d with
  | Direction.Right => f.rightStream
  | _ => f.leftStream

/-- State of the `SingleFilePlayer` looping calibration player: its sink and
the (nullable) calibration file pointer. -/
structure SingleFilePlayer where
  sink : Sink
  file : Option FileSound
  deriving DecidableEq, Repr

/-- `SingleFilePlayer::setFileSound(value)`: the update is accepted only if
the left-channel URL is non-empty, otherwise silently rejected. -/
def SingleFilePlayer.setFileSound (s : SingleFilePlayer) (value : FileSound) :
    SingleFilePlayer :=
  if value.leftUrl = "" then s else { s with file := some value }

/-- `SingleFilePlayer::setVolume(volume)`: direct pass-through to the sink,
no calibration offset layer. -/
def SingleFilePlayer.setVolume (s : SingleFilePlayer) (volume : Rat) :
    SingleFilePlayer :=
  { s with sink := { s.sink with volume := volume } }

/-- `SingleFilePlayer::getVolume()`. -/
def SingleFilePlayer.getVolume (s : SingleFilePlayer) : Rat :=
  s.sink.volume

/-- `SingleFilePlayer::setAudioDevice(device)`: same open/error pattern as
the sequencer but with no volume handling.  This player's Active branch is a
no-op, so the synchronous `stateChanged(Active)` cascade adds nothing. -/
def SingleFilePlayer.setAudioDevice (s : SingleFilePlayer) (device : StreamObj) :
    SingleFilePlayer × List Act :=
  if device.isOpen then
    ({ s with sink := { s.sink with state := AudioState.Active } },
     [Act.sinkStart device.id])
  else
    if device.canOpen then
      ({ s with sink := { s.sink with state := AudioState.Active } },
       [Act.streamOpen device.id true, Act.sinkStart device.id])
    else
      (s, [Act.streamOpen device.id false,
           Act.emitError SOUND_SAMPLE_OPEN_ERROR])

/-- `SingleFilePlayer::stop()`: stops the sink.  This player's Stopped
branch is a no-op, so the synchronous `stateChanged(Stopped)` cascade adds
nothing. -/
def SingleFilePlayer.stop (s : SingleFilePlayer) : SingleFilePlayer × List Act :=
  ({ s with sink := { s.sink with state := AudioState.Stopped } },
   [Act.sinkStop])

/-- `SingleFilePlayer::start()`: if a file is set, fetches the left-channel
sample and starts it; a null file pointer makes the call a no-op (the
`if(file)` guard). -/
def SingleFilePlayer.start (s : SingleFilePlayer) : SingleFilePlayer × List Act :=
  match s.file with
  | none => (s, [])
  | some f => s.setAudioDevice (f.getSound Direction.Left)

/-- `SingleFilePlayer::onStateChanged(state)`: only the Idle branch acts —
it fetches the left-channel sample again and starts it (the infinite loop);
Active, Suspended and Stopped are no-ops.  A null file pointer would be
dereferenced by `file->getSound`. -/
def SingleFilePlayer.onStateChanged (s : SingleFilePlayer) (st : AudioState) :
    SingleFilePlayer × List Act :=
  match st with
  | AudioState.Idle =>
    match s.file with
    | none => (s, [Act.nullDeref])
    | some f => s.setAudioDevice (f.getSound Direction.Left)
  | _ => (s, [])

/-- A closed, openable stream used by the concrete test states. -/
def streamA : StreamObj := ⟨1, false, true⟩

/-- An already-open stream. -/
def streamB : StreamObj := ⟨2, true, true⟩

/-- A closed stream whose read-only open fails. -/
def streamBad : StreamObj := ⟨3, false, false⟩

/-- A concrete playlist entry built from `streamA`/`streamB`. -/
def setA : SoundSet :=
  { left := ⟨streamA, 1/2⟩, right := ⟨streamB, 3/4⟩
    freq := 1000, volDb := 30, volPercent := 1/2 }

/-- A second concrete playlist entry. -/
def setB : SoundSet :=
  { left := ⟨streamB, 1/4⟩, right := ⟨streamA, 1/5⟩
    freq := 2000, volDb := 40, volPercent := 1/4 }

/-- A concrete two-entry playlist. -/
def playlistAB : Playlist := ⟨[setA, setB]⟩

/-- A concrete empty playlist. -/
def playlistEmpty : Playlist := ⟨[]⟩

/-- A concrete iterator mid-run: `setB` still to come, `setA` current. -/
def iterMid : PlaylistIter := ⟨[setB], some setA, false⟩

/-- A concrete sequencer state mid-run: playing `setA` on the left channel,
gap timer off, sink Active. -/
def playerMid : SoundPlayer :=
  { playlist := some playlistAB, playlistIter := some iterMid
    currentChannel := Direction.Left, volumeAdjust := 1/10
    timerActive := false, noSoundTimeSpanMs := 3000
    sink := { state := AudioState.Active, volume := 3/5 } }

/-- A concrete freshly-constructed sequencer state. -/
def playerFresh : SoundPlayer :=
  { playlist := some playlistEmpty, playlistIter := none
    currentChannel := Direction.Left, volumeAdjust := 0
    timerActive := false, noSoundTimeSpanMs := 3000
    sink := { state := AudioState.Stopped, volume := 1 } }

/-- A concrete sequencer state whose channel holds an out-of-range value. -/
def playerBadChannel : SoundPlayer :=
  { playerMid with currentChannel := Direction.Invalid }

/-- A concrete calibration file whose left stream is already open (the
steady state of the loop after the first start). -/
def fileCal : FileSound :=
  { leftUrl := "calibration.wav", leftStream := ⟨7, true, true⟩
    rightStream := ⟨8, false, true⟩ }

/-- A concrete single-file player state that is currently playing. -/
def sfpPlaying : SingleFilePlayer :=
  { sink := { state := AudioState.Active, volume := 1 }, file := some fileCal }

/-- Helper: a sink start (with its possible synchronous Active cascade)
never emits an error. -/
theorem sinkStartOp_countP_isErrorEmit (s : SoundPlayer) (sid : Nat) :
    ((sinkStartOp s sid).2.countP Act.isErrorEmit) = 0 := by
  unfold sinkStartOp
  rcases h : s.playlistIter with _ | it <;>
    by_cases hs : s.sink.state = AudioState.Active <;>
      simp [hs, activeActions, h, Act.isErrorEmit]

/-- Helper: a sink start never attempts to open a stream. -/
theorem sinkStartOp_countP_isOpenAttempt (s : SoundPlayer) (sid : Nat) :
    ((sinkStartOp s sid).2.countP Act.isOpenAttempt) = 0 := by
  unfold sinkStartOp
  rcases h : s.playlistIter with _ | it <;>
    by_cases hs : s.sink.state = AudioState.Active <;>
      simp [hs, activeActions, h, Act.isOpenAttempt]

/-- Helper: a sink start records the start call in its trace. -/
theorem sinkStartOp_mem_sinkStart (s : SoundPlayer) (sid : Nat) :
    Act.sinkStart sid ∈ (sinkStartOp s sid).2 := by
  unfold sinkStartOp
  simp

/-- C4: on a sample start attempt, a closed stream whose read-only open
fails yields exactly one SoundSampleOpenError and no sink start; a closed
stream whose open succeeds is opened and started; an already-open stream is
started directly with no open attempt, and neither success path emits an
error. -/
theorem C4_setAudioDevice_open_protocol (s : SoundPlayer) (d : StreamObj) (v : Rat) :
    (d.isOpen = false → d.canOpen = false →
      (s.setAudioDevice (some d) v).2.countP Act.isErrorEmit = 1 ∧
      (s.setAudioDevice (some d) v).2.countP Act.isSinkStart = 0) ∧
    (d.isOpen = false → d.canOpen = true →
      Act.streamOpen d.id true ∈ (s.setAudioDevice (some d) v).2 ∧
      Act.sinkStart d.id ∈ (s.setAudioDevice (some d) v).2 ∧
      (s.setAudioDevice (some d) v).2.countP Act.isErrorEmit = 0) ∧
    (d.isOpen = true →
      Act.sinkStart d.id ∈ (s.setAudioDevice (some d) v).2 ∧
      (s.setAudioDevice (some d) v).2.countP Act.isOpenAttempt = 0 ∧
      (s.setAudioDevice (some d) v).2.countP Act.isErrorEmit = 0) := by
  refine ⟨fun h1 h2 => ?_, fun h1 h2 => ?_, fun h1 => ?_⟩
  · simp [SoundPlayer.setAudioDevice, h1, h2, Act.isErrorEmit, Act.isSinkStart]
  · constructor
    · simp [SoundPlayer.setAudioDevice, h1, h2]
    constructor
    · simp [SoundPlayer.setAudioDevice, h1, h2]
      exact sinkStartOp_mem_sinkStart _ d.id
    · simp [SoundPlayer.setAudioDevice, h1, h2, Act.isErrorEmit,
            sinkStartOp_countP_isErrorEmit]
  · refine ⟨?_, ?_, ?_⟩
    · simp [SoundPlayer.setAudioDevice, h1]
      exact sinkStartOp_mem_sinkStart _ d.id
    · simp [SoundPlayer.setAudioDevice, h1, Act.isOpenAttempt,
            sinkStartOp_countP_isOpenAttempt]
    · simp [SoundPlayer.setAudioDevice, h1, Act.isErrorEmit,
            sinkStartOp_countP_isErrorEmit]

/-- Witness for C4 at concrete inputs. -/
theorem C4_setAudioDevice_open_protocol_witness :
    (streamBad.isOpen = false → streamBad.canOpen = false →
      (playerMid.setAudioDevice (some streamBad) (1/2)).2.countP Act.isErrorEmit = 1 ∧
      (playerMid.setAudioDevice (some streamBad) (1/2)).2.countP Act.isSinkStart = 0) ∧
    (streamBad.isOpen = false → streamBad.canOpen = true →
      Act.streamOpen streamBad.id true ∈ (playerMid.setAudioDevice (some streamBad) (1/2)).2 ∧
      Act.sinkStart streamBad.id ∈ (playerMid.setAudioDevice (some streamBad) (1/2)).2 ∧
      (playerMid.setAudioDevice (some streamBad) (1/2)).2.countP Act.isErrorEmit = 0) ∧
    (streamBad.isOpen = true →
      Act.sinkStart streamBad.id ∈ (playerMid.setAudioDevice (some streamBad) (1/2)).2 ∧
      (playerMid.setAudioDevice (some streamBad) (1/2)).2.countP Act.isOpenAttempt = 0 ∧
      (playerMid.setAudioDevice (some streamBad) (1/2)).2.countP Act.isErrorEmit = 0) :=
  C4_setAudioDevice_open_protocol playerMid streamBad (1/2)

/-- C10: when the read-only open of a closed stream fails, the sink volume
has already been set to the sample's intrinsic volume plus the Volume
Adjustment before the error is emitted (the `setVolume` call is the first
action of the trace). -/
theorem C10_volume_set_before_failure (s : SoundPlayer) (d : StreamObj) (v : Rat)
    (h1 : d.isOpen = false) (h2 : d.canOpen = false) :
    (s.setAudioDevice (some d) v).1.sink.volume = v + s.volumeAdjust ∧
    (s.setAudioDevice (some d) v).2 =
      [Act.setVolume (v + s.volumeAdjust), Act.streamOpen d.id false,
       Act.emitError SOUND_SAMPLE_OPEN_ERROR] := by
  simp [SoundPlayer.setAudioDevice, h1, h2]

/-- Witness for C10 at concrete inputs. -/
theorem C10_volume_set_before_failure_witness :
    (playerMid.setAudioDevice (some streamBad) (2/5)).1.sink.volume =
      2/5 + playerMid.volumeAdjust ∧
    (playerMid.setAudioDevice (some streamBad) (2/5)).2 =
      [Act.setVolume (2/5 + playerMid.volumeAdjust), Act.streamOpen streamBad.id false,
       Act.emitError SOUND_SAMPLE_OPEN_ERROR] :=
  C10_volume_set_before_failure playerMid streamBad (2/5) rfl rfl

/-- C3 counterexample: starting an empty playlist does mutate the
sequencer's playback state — at this concrete input the recorded channel
changes (and so does the iterator handle), refuting the claim that no
playback state of the sequencer is mutated. -/
theorem C3_counterexample_state_mutated :
    (playerFresh.playPlaylist Direction.Right).1.currentChannel = Direction.Right ∧
    playerFresh.currentChannel = Direction.Left ∧
    (playerFresh.playPlaylist Direction.Right).1 ≠ playerFresh := by decide

/-- C3 amended: `playPlaylist` on an empty playlist emits exactly one
PlaylistError and issues zero sink start calls, but it does reset and
re-acquire the iterator handle and record the requested channel before the
emptiness check. -/
theorem C3_empty_playlist_amended (s : SoundPlayer) (p : Playlist) (ch : Direction)
    (hp : s.playlist = some p) (he : p.entries = []) :
    (s.playPlaylist ch).2 = [Act.emitError PLAYLIST_ERROR] ∧
    (s.playPlaylist ch).2.countP Act.isErrorEmit = 1 ∧
    (s.playPlaylist ch).2.countP Act.isSinkStart = 0 ∧
    (s.playPlaylist ch).1 =
      { s with playlistIter := some p.iterator, currentChannel := ch } := by
  simp [SoundPlayer.playPlaylist, hp, Playlist.iterator, PlaylistIter.hasNext, he,
        Act.isErrorEmit, Act.isSinkStart]

/-- Witness for the amended C3 at concrete inputs. -/
theorem C3_empty_playlist_amended_witness :
    (playerFresh.playPlaylist Direction.Right).2 = [Act.emitError PLAYLIST_ERROR] ∧
    (playerFresh.playPlaylist Direction.Right).2.countP Act.isErrorEmit = 1 ∧
    (playerFresh.playPlaylist Direction.Right).2.countP Act.isSinkStart = 0 ∧
    (playerFresh.playPlaylist Direction.Right).1 =
      { playerFresh with playlistIter := some playlistEmpty.iterator,
                         currentChannel := Direction.Right } :=
  C3_empty_playlist_amended playerFresh playlistEmpty Direction.Right rfl rfl

/-- C8 counterexample: at this concrete state an unrecognized channel value
reaches the sample-fetch step of a running playlist (the iterator has a next
entry), yet the handler run emits no `errorString` at all — refuting the
claimed invalid-channel error notification. -/
theorem C8_counterexample_no_error_emitted :
    playerBadChannel.currentChannel = Direction.Invalid ∧
    playerBadChannel.playlistIter.map PlaylistIter.hasNext = some true ∧
    (playerBadChannel.playNextSample).2.countP Act.isErrorEmit = 0 := by decide

/-- C8 amended: an unrecognized channel value at the fetch step yields a
null stream reference with volume 0 and no `errorString` is emitted — the
`DIRECTION_ERROR` message exists in the source but is never used. -/
theorem C8_invalid_channel_amended (s : SoundPlayer) (it : PlaylistIter)
    (hit : s.playlistIter = some it) (hch : s.currentChannel = Direction.Invalid) :
    s.getSample = ((none, 0), s) ∧
    (s.playNextSample).2.countP Act.isErrorEmit = 0 := by
  have hg : s.getSample = ((none, 0), s) := by
    simp [SoundPlayer.getSample, hit, hch]
  refine ⟨hg, ?_⟩
  by_cases hn : it.hasNext
  · simp [SoundPlayer.playNextSample, hit, hn, hg, SoundPlayer.setAudioDevice,
          Act.isErrorEmit]
  · simp [SoundPlayer.playNextSample, hit, hn, Act.isErrorEmit]

/-- Witness for the amended C8 at concrete inputs. -/
theorem C8_invalid_channel_amended_witness :
    playerBadChannel.getSample = ((none, 0), playerBadChannel) ∧
    (playerBadChannel.playNextSample).2.countP Act.isErrorEmit = 0 :=
  C8_invalid_channel_amended playerBadChannel iterMid rfl rfl

/-- Helper: a sink start never emits `playlistEnded`. -/
theorem sinkStartOp_not_playlistEnded (s : SoundPlayer) (sid : Nat) :
    Act.emitPlaylistEnded ∉ (sinkStartOp s sid).2 := by
  unfold sinkStartOp
  rcases h : s.playlistIter with _ | it <;>
    by_cases hs : s.sink.state = AudioState.Active <;>
      simp [hs, activeActions, h]

/-- Helper: a start attempt on a stream that is open or openable records the
volume call and the sink start, never emits `playlistEnded`, and leaves the
iterator handle untouched. -/
theorem setAudioDevice_success (s : SoundPlayer) (d : StreamObj) (v : Rat)
    (h : d.isOpen = true ∨ d.canOpen = true) :
    Act.setVolume (v + s.volumeAdjust) ∈ (s.setAudioDevice (some d) v).2 ∧
    Act.sinkStart d.id ∈ (s.setAudioDevice (some d) v).2 ∧
    Act.emitPlaylistEnded ∉ (s.setAudioDevice (some d) v).2 ∧
    (s.setAudioDevice (some d) v).1.playlistIter = s.playlistIter := by
  by_cases h1 : d.isOpen
  · refine ⟨by simp [SoundPlayer.setAudioDevice, h1], ?_, ?_, ?_⟩
    · simp [SoundPlayer.setAudioDevice, h1]
      exact sinkStartOp_mem_sinkStart _ d.id
    · simp [SoundPlayer.setAudioDevice, h1]
      exact sinkStartOp_not_playlistEnded _ d.id
    · simp [SoundPlayer.setAudioDevice, h1, sinkStartOp]
  · have h2 : d.canOpen = true := by
      rcases h with h | h
      · exact absurd h h1
      · exact h
    refine ⟨by simp [SoundPlayer.setAudioDevice, h1, h2], ?_, ?_, ?_⟩
    · simp [SoundPlayer.setAudioDevice, h1, h2]
      exact sinkStartOp_mem_sinkStart _ d.id
    · simp [SoundPlayer.setAudioDevice, h1, h2]
      exact sinkStartOp_not_playlistEnded _ d.id
    · simp [SoundPlayer.setAudioDevice, h1, h2, sinkStartOp]

/-- Helper: every start attempt first sets the sink volume to the intrinsic
volume plus the adjustment; the resulting sink volume is that sum and the
adjustment itself is untouched. -/
theorem setAudioDevice_volume (s : SoundPlayer) (d : StreamObj) (v : Rat) :
    (s.setAudioDevice (some d) v).1.sink.volume = v + s.volumeAdjust ∧
    (s.setAudioDevice (some d) v).2.head? = some (Act.setVolume (v + s.volumeAdjust)) ∧
    (s.setAudioDevice (some d) v).1.volumeAdjust = s.volumeAdjust := by
  by_cases h1 : d.isOpen <;> by_cases h2 : d.canOpen <;>
    simp [SoundPlayer.setAudioDevice, h1, h2, sinkStartOp]

/-- C1: the sequencer's sink state-change handler reacts per the state
table — Active emits `currentPlaylistElement` with the iterator's current
metadata, Suspended does nothing, Stopped starts the gap timer, Idle stops
the sink (whose synchronous stop-induced Stopped notification starts the
gap timer) and emits `stopPlaying`. -/
theorem C1_state_table_reaction (s : SoundPlayer) (it : PlaylistIter) (c : SoundSet)
    (hit : s.playlistIter = some it) (hc : it.current = some c)
    (hs : s.sink.state ≠ AudioState.Stopped) :
    s.onStateChanged AudioState.Active =
      (s, [Act.emitCurrentPlaylistElement ⟨c.freq, c.volDb, c.volPercent⟩]) ∧
    s.onStateChanged AudioState.Suspended = (s, []) ∧
    s.onStateChanged AudioState.Stopped =
      ({ s with timerActive := true }, [Act.timerStart]) ∧
    (s.onStateChanged AudioState.Idle).2 =
      [Act.sinkStop, Act.timerStart, Act.emitStopPlaying] ∧
    (s.onStateChanged AudioState.Idle).1.sink.state = AudioState.Stopped := by
  refine ⟨?_, rfl, rfl, ?_, ?_⟩
  · simp [SoundPlayer.onStateChanged, activeActions, hit, hc,
          PlaylistIter.getCurrentFrequency, PlaylistIter.getCurrentVolumeDb,
          PlaylistIter.getCurrentVolumePercent]
  · simp [SoundPlayer.onStateChanged, sinkStopOp, hs]
  · simp [SoundPlayer.onStateChanged, sinkStopOp, hs]

/-- Witness for C1 at concrete inputs. -/
theorem C1_state_table_reaction_witness :
    playerMid.onStateChanged AudioState.Active =
      (playerMid,
       [Act.emitCurrentPlaylistElement ⟨setA.freq, setA.volDb, setA.volPercent⟩]) ∧
    playerMid.onStateChanged AudioState.Suspended = (playerMid, []) ∧
    playerMid.onStateChanged AudioState.Stopped =
      ({ playerMid with timerActive := true }, [Act.timerStart]) ∧
    (playerMid.onStateChanged AudioState.Idle).2 =
      [Act.sinkStop, Act.timerStart, Act.emitStopPlaying] ∧
    (playerMid.onStateChanged AudioState.Idle).1.sink.state = AudioState.Stopped :=
  C1_state_table_reaction playerMid iterMid setA rfl rfl (by decide)

/-- C2: the gap-timer expiry handler emits `aboutToPlayNextElement` first;
when the iterator has a next entry for the recorded channel it fetches that
entry (advancing the iterator) and starts it on the sink with the Volume
Adjustment applied; when exhausted it emits `playlistEnded` exactly once and
performs no sink interaction at all. -/
theorem C2_playNextSample_behavior (s : SoundPlayer) (it : PlaylistIter)
    (hit : s.playlistIter = some it) :
    (s.playNextSample).2.head? = some Act.emitAboutToPlayNextElement ∧
    (it.hasNext = false →
      s.playNextSample = (s, [Act.emitAboutToPlayNextElement, Act.emitPlaylistEnded]) ∧
      (s.playNextSample).2.countP Act.isPlaylistEndedEmit = 1 ∧
      (s.playNextSample).2.countP Act.isSinkInteraction = 0) ∧
    (∀ e rest, it.remaining = e :: rest → s.currentChannel = Direction.Left →
      e.left.stream.isOpen = true ∨ e.left.stream.canOpen = true →
      Act.setVolume (e.left.volume + s.volumeAdjust) ∈ (s.playNextSample).2 ∧
      Act.sinkStart e.left.stream.id ∈ (s.playNextSample).2 ∧
      (s.playNextSample).1.playlistIter = some ⟨rest, some e, it.stopRequested⟩ ∧
      Act.emitPlaylistEnded ∉ (s.playNextSample).2) ∧
    (∀ e rest, it.remaining = e :: rest → s.currentChannel = Direction.Right →
      e.right.stream.isOpen = true ∨ e.right.stream.canOpen = true →
      Act.setVolume (e.right.volume + s.volumeAdjust) ∈ (s.playNextSample).2 ∧
      Act.sinkStart e.right.stream.id ∈ (s.playNextSample).2 ∧
      (s.playNextSample).1.playlistIter = some ⟨rest, some e, it.stopRequested⟩ ∧
      Act.emitPlaylistEnded ∉ (s.playNextSample).2) := by
  refine ⟨?_, fun hnf => ?_, fun e rest hrem hch hopen => ?_,
          fun e rest hrem hch hopen => ?_⟩
  · by_cases hn : it.hasNext <;> simp [SoundPlayer.playNextSample, hit, hn]
  · simp [SoundPlayer.playNextSample, hit, hnf, Act.isPlaylistEndedEmit,
          Act.isSinkInteraction]
  · have hn : it.hasNext = true := by simp [PlaylistIter.hasNext, hrem]
    have hg : s.getSample =
        ((some e.left.stream, e.left.volume),
         { s with playlistIter := some ⟨rest, some e, it.stopRequested⟩ }) := by
      simp [SoundPlayer.getSample, hit, hch, PlaylistIter.nextLeft, hrem]
    have hs := setAudioDevice_success
      { s with playlistIter := some ⟨rest, some e, it.stopRequested⟩ }
      e.left.stream e.left.volume hopen
    refine ⟨?_, ?_, ?_, ?_⟩ <;>
      simp only [SoundPlayer.playNextSample, hit, hn, hg, if_pos] <;>
      simp [hs.1, hs.2.1, hs.2.2.1, hs.2.2.2]
  · have hn : it.hasNext = true := by simp [PlaylistIter.hasNext, hrem]
    have hg : s.getSample =
        ((some e.right.stream, e.right.volume),
         { s with playlistIter := some ⟨rest, some e, it.stopRequested⟩ }) := by
      simp [SoundPlayer.getSample, hit, hch, PlaylistIter.nextRight, hrem]
    have hs := setAudioDevice_success
      { s with playlistIter := some ⟨rest, some e, it.stopRequested⟩ }
      e.right.stream e.right.volume hopen
    refine ⟨?_, ?_, ?_, ?_⟩ <;>
      simp only [SoundPlayer.playNextSample, hit, hn, hg, if_pos] <;>
      simp [hs.1, hs.2.1, hs.2.2.1, hs.2.2.2]

/-- Witness for C2 at concrete inputs. -/
theorem C2_playNextSample_behavior_witness :
    (playerMid.playNextSample).2.head? = some Act.emitAboutToPlayNextElement ∧
    (iterMid.hasNext = false →
      playerMid.playNextSample =
        (playerMid, [Act.emitAboutToPlayNextElement, Act.emitPlaylistEnded]) ∧
      (playerMid.playNextSample).2.countP Act.isPlaylistEndedEmit = 1 ∧
      (playerMid.playNextSample).2.countP Act.isSinkInteraction = 0) ∧
    (∀ e rest, iterMid.remaining = e :: rest →
      playerMid.currentChannel = Direction.Left →
      e.left.stream.isOpen = true ∨ e.left.stream.canOpen = true →
      Act.setVolume (e.left.volume + playerMid.volumeAdjust) ∈ (playerMid.playNextSample).2 ∧
      Act.sinkStart e.left.stream.id ∈ (playerMid.playNextSample).2 ∧
      (playerMid.playNextSample).1.playlistIter =
        some ⟨rest, some e, iterMid.stopRequested⟩ ∧
      Act.emitPlaylistEnded ∉ (playerMid.playNextSample).2) ∧
    (∀ e rest, iterMid.remaining = e :: rest →
      playerMid.currentChannel = Direction.Right →
      e.right.stream.isOpen = true ∨ e.right.stream.canOpen = true →
      Act.setVolume (e.right.volume + playerMid.volumeAdjust) ∈ (playerMid.playNextSample).2 ∧
      Act.sinkStart e.right.stream.id ∈ (playerMid.playNextSample).2 ∧
      (playerMid.playNextSample).1.playlistIter =
        some ⟨rest, some e, iterMid.stopRequested⟩ ∧
      Act.emitPlaylistEnded ∉ (playerMid.playNextSample).2) :=
  C2_playNextSample_behavior playerMid iterMid rfl

/-- C5: after `setCorrectionAdjustVolume o`, every subsequent start attempt
sets the sink volume to the sample's intrinsic volume plus `o` (and the
offset persists), while the Audiogram Data emitted on Active still reports
the iterator's intrinsic frequency, dB and percent, identical to what it was
before the adjustment. -/
theorem C5_volume_adjustment (s : SoundPlayer) (o : Rat) (it : PlaylistIter)
    (c : SoundSet) (hit : s.playlistIter = some it) (hc : it.current = some c) :
    ∀ (d : StreamObj) (v : Rat),
      ((s.setCorrectionAdjustVolume o).setAudioDevice (some d) v).1.sink.volume = v + o ∧
      ((s.setCorrectionAdjustVolume o).setAudioDevice (some d) v).2.head? =
        some (Act.setVolume (v + o)) ∧
      ((s.setCorrectionAdjustVolume o).setAudioDevice (some d) v).1.volumeAdjust = o ∧
      ((s.setCorrectionAdjustVolume o).onStateChanged AudioState.Active).2 =
        [Act.emitCurrentPlaylistElement ⟨c.freq, c.volDb, c.volPercent⟩] ∧
      ((s.setCorrectionAdjustVolume o).onStateChanged AudioState.Active).2 =
        (s.onStateChanged AudioState.Active).2 := by
  intro d v
  have hv := setAudioDevice_volume (s.setCorrectionAdjustVolume o) d v
  refine ⟨hv.1, hv.2.1, hv.2.2, ?_, ?_⟩
  · simp [SoundPlayer.onStateChanged, SoundPlayer.setCorrectionAdjustVolume,
          activeActions, hit, hc, PlaylistIter.getCurrentFrequency,
          PlaylistIter.getCurrentVolumeDb, PlaylistIter.getCurrentVolumePercent]
  · simp [SoundPlayer.onStateChanged, SoundPlayer.setCorrectionAdjustVolume,
          activeActions]

/-- Witness for C5 at concrete inputs. -/
theorem C5_volume_adjustment_witness :
    ((playerMid.setCorrectionAdjustVolume (1/5)).setAudioDevice (some streamA) (1/2)).1.sink.volume =
      1/2 + 1/5 ∧
    ((playerMid.setCorrectionAdjustVolume (1/5)).setAudioDevice (some streamA) (1/2)).2.head? =
      some (Act.setVolume (1/2 + 1/5)) ∧
    ((playerMid.setCorrectionAdjustVolume (1/5)).setAudioDevice (some streamA) (1/2)).1.volumeAdjust =
      1/5 ∧
    ((playerMid.setCorrectionAdjustVolume (1/5)).onStateChanged AudioState.Active).2 =
      [Act.emitCurrentPlaylistElement ⟨setA.freq, setA.volDb, setA.volPercent⟩] ∧
    ((playerMid.setCorrectionAdjustVolume (1/5)).onStateChanged AudioState.Active).2 =
      (playerMid.onStateChanged AudioState.Active).2 :=
  C5_volume_adjustment playerMid (1/5) iterMid setA rfl rfl streamA (1/2)

/-- C6: whenever a playlist run was previously started (the iterator handle
is present), `stopPlaylist` stops the sink, stops the gap timer and
instructs the iterator to stop, dereferences no absent handle, and is
idempotent: a second call leaves the state unchanged. -/
theorem C6_stopPlaylist_safe_idempotent (s : SoundPlayer) (it : PlaylistIter)
    (hit : s.playlistIter = some it) :
    Act.sinkStop ∈ (s.stopPlaylist).2 ∧
    Act.timerStop ∈ (s.stopPlaylist).2 ∧
    Act.iterStop ∈ (s.stopPlaylist).2 ∧
    Act.nullDeref ∉ (s.stopPlaylist).2 ∧
    (s.stopPlaylist).1.timerActive = false ∧
    (s.stopPlaylist).1.sink.state = AudioState.Stopped ∧
    (s.stopPlaylist).1.playlistIter = some it.stop ∧
    ((s.stopPlaylist).1.stopPlaylist).1 = (s.stopPlaylist).1 := by
  by_cases hs : s.sink.state = AudioState.Stopped <;>
    simp [SoundPlayer.stopPlaylist, sinkStopOp, hs, hit, PlaylistIter.stop]

/-- Witness for C6 at concrete inputs. -/
theorem C6_stopPlaylist_safe_idempotent_witness :
    Act.sinkStop ∈ (playerMid.stopPlaylist).2 ∧
    Act.timerStop ∈ (playerMid.stopPlaylist).2 ∧
    Act.iterStop ∈ (playerMid.stopPlaylist).2 ∧
    Act.nullDeref ∉ (playerMid.stopPlaylist).2 ∧
    (playerMid.stopPlaylist).1.timerActive = false ∧
    (playerMid.stopPlaylist).1.sink.state = AudioState.Stopped ∧
    (playerMid.stopPlaylist).1.playlistIter = some iterMid.stop ∧
    ((playerMid.stopPlaylist).1.stopPlaylist).1 = (playerMid.stopPlaylist).1 :=
  C6_stopPlaylist_safe_idempotent playerMid iterMid rfl

/-- Helper: from a quiescent state (timer off, sink not Active) no
autonomous event is enabled, so no further actions — in particular no
Active or Idle notifications — are ever produced. -/
theorem runAuto_of_quiescent (s : SoundPlayer) (h1 : s.timerActive = false)
    (h2 : s.sink.state ≠ AudioState.Active) :
    ∀ evs : List AutoEvent, runAuto s evs = (s, []) := by
  intro evs
  induction evs with
  | nil => rfl
  | cons e es ih =>
    cases e <;> simp [runAuto, autoEnabled, h1, h2, ih]

/-- C7: calling `stopPlaylist` while the sink is Active leaves the run
quiescent — the sink is Stopped and the gap timer is off (the stop-induced
Stopped notification did start the timer, but the subsequent timer stop
cancels it), so no autonomous event can fire afterwards and no further
Active or Idle notifications are produced for the old run. -/
theorem C7_stop_while_active_quiescent (s : SoundPlayer) (it : PlaylistIter)
    (hit : s.playlistIter = some it) (hact : s.sink.state = AudioState.Active) :
    (s.stopPlaylist).1.sink.state = AudioState.Stopped ∧
    (s.stopPlaylist).1.timerActive = false ∧
    ∀ evs : List AutoEvent,
      runAuto (s.stopPlaylist).1 evs = ((s.stopPlaylist).1, []) := by
  have hns : ¬ s.sink.state = AudioState.Stopped := by
    rw [hact]; intro h; exact absurd h (by decide)
  have h1 : (s.stopPlaylist).1.sink.state = AudioState.Stopped := by
    simp [SoundPlayer.stopPlaylist, sinkStopOp, hns, hit]
  have h2 : (s.stopPlaylist).1.timerActive = false := by
    simp [SoundPlayer.stopPlaylist, sinkStopOp, hns, hit]
  refine ⟨h1, h2, runAuto_of_quiescent _ h2 ?_⟩
  rw [h1]
  decide

/-- Witness for C7 at concrete inputs. -/
theorem C7_stop_while_active_quiescent_witness :
    (playerMid.stopPlaylist).1.sink.state = AudioState.Stopped ∧
    (playerMid.stopPlaylist).1.timerActive = false ∧
    ∀ evs : List AutoEvent,
      runAuto (playerMid.stopPlaylist).1 evs = ((playerMid.stopPlaylist).1, []) :=
  C7_stop_while_active_quiescent playerMid iterMid rfl rfl

/-- C9 counterexample: at this concrete input the player has been stopped
(the sink is Stopped), yet a late-arriving Idle notification makes the
handler start the same left-channel sample again and the sink goes Active —
an auto-restart after `stop()`, refuting the claim that none occurs. -/
theorem C9_counterexample_restart_after_stop :
    ((sfpPlaying.stop).1).sink.state = AudioState.Stopped ∧
    Act.sinkStart 7 ∈ (((sfpPlaying.stop).1).onStateChanged AudioState.Idle).2 ∧
    ((((sfpPlaying.stop).1).onStateChanged AudioState.Idle).1).sink.state =
      AudioState.Active := by decide

/-- C9 amended: every Idle notification delivered to the single-file
player's handler restarts the same left-channel sample unconditionally —
there is no stopped-guard, so the handler behaves identically before and
after `stop()`; the absence of post-stop restarts relies solely on the
stopped sink delivering no further Idle notifications. -/
theorem C9_idle_restart_unconditional (s : SingleFilePlayer) (f : FileSound)
    (hf : s.file = some f)
    (hopen : f.leftStream.isOpen = true ∨ f.leftStream.canOpen = true) :
    Act.sinkStart f.leftStream.id ∈ (s.onStateChanged AudioState.Idle).2 ∧
    (s.onStateChanged AudioState.Idle).1.sink.state = AudioState.Active ∧
    ((s.stop).1.onStateChanged AudioState.Idle).2 =
      (s.onStateChanged AudioState.Idle).2 := by
  have hstop : (s.stop).1.file = some f := hf
  rcases hopen with h | h
  · refine ⟨?_, ?_, ?_⟩ <;>
      simp [SingleFilePlayer.onStateChanged, SingleFilePlayer.stop,
            SingleFilePlayer.setAudioDevice, hf, FileSound.getSound, h]
  · by_cases h1 : f.leftStream.isOpen <;>
      refine ⟨?_, ?_, ?_⟩ <;>
        simp [SingleFilePlayer.onStateChanged, SingleFilePlayer.stop,
              SingleFilePlayer.setAudioDevice, hf, FileSound.getSound, h, h1]

/-- Witness for the amended C9 at concrete inputs. -/
theorem C9_idle_restart_unconditional_witness :
    Act.sinkStart fileCal.leftStream.id ∈
      (sfpPlaying.onStateChanged AudioState.Idle).2 ∧
    (sfpPlaying.onStateChanged AudioState.Idle).1.sink.state = AudioState.Active ∧
    ((sfpPlaying.stop).1.onStateChanged AudioState.Idle).2 =
      (sfpPlaying.onStateChanged AudioState.Idle).2 :=
  C9_idle_restart_unconditional sfpPlaying fileCal rfl (Or.inl rfl)
